import Mathlib

/-
Shallow embedding of src/split.js (long-lazuli/ui-splitter).

The whole library is one file, src/split.js.  Its numeric values are
JavaScript numbers; the embedding models them as rationals extended with a
NaN element (JsNum below), because several properties read by the sizing
code are never assigned anywhere in the file and therefore evaluate to
undefined, which behaves as NaN in arithmetic and makes every comparison
false.  Concretely, in the source:

* pane objects are created (split.js lines 436-444) with exactly the fields
  el, minSize, size, isFirst, isLast, isCollapsed; the properties
  pane.pixelSize (read at line 215), pane.start (read at line 286) and
  pane.gutterSize (read at lines 306-309) are never assigned;
* gutter objects are created (line 461) with exactly the field el; the
  property gutter.size (read by widthBetween, line 200) is never assigned;
* the pair object built by drag (lines 263-267) and by collapse
  (lines 522-525) has no size and no start until calculateSizes assigns
  them.

Reads of such absent properties yield undefined; in numeric context
undefined behaves exactly like NaN (any arithmetic gives NaN, any
comparison is false), so the embedding maps an absent numeric property to
JsNum.nan when it is read.  Division by zero in JavaScript yields a signed
infinity; it is modelled as nan here, and no theorem below exercises that
corner (every division that occurs already has a nan operand or a nonzero
denominator).

DOM side effects (style writes via applyPaneSize / setGutterSize /
elementStyle, cursor and user-select changes, preventDefault) do not feed
back into the sizing state and are omitted.  Pane geometry produced by the
layout engine (getBoundingClientRect) is an external input and is modelled
as an oracle rect : Int -> Rat x Rat giving, per pane index, the pixel
extent along the split axis and the leading-edge coordinate.  The
onDragStart / onDrag / onDragEnd callbacks are observable outputs and are
modelled as invocation counters in the state.
-/

namespace UiSplitter

/-- JavaScript number restricted to the values the sizing code can produce:
a rational, or NaN (which also stands for undefined read in numeric
context). -/
inductive JsNum where
  | num (q : ℚ)
  | nan
deriving DecidableEq

/-- Rational addition written through the kernel-reducible mkRat, so that
concrete runs of the embedded code can be checked by decide; qadd_eq_add
below proves it is ordinary addition on the rationals. -/
def qadd (a b : ℚ) : ℚ := mkRat (a.num * b.den + b.num * a.den) (a.den * b.den)

/-- Rational subtraction through mkRat; equals ordinary subtraction. -/
def qsub (a b : ℚ) : ℚ := mkRat (a.num * b.den - b.num * a.den) (a.den * b.den)

/-- Rational multiplication through mkRat; equals ordinary multiplication. -/
def qmul (a b : ℚ) : ℚ := mkRat (a.num * b.num) (a.den * b.den)

/-- Rational division through Rat.divInt; equals ordinary division. -/
def qdiv (a b : ℚ) : ℚ := Rat.divInt (a.num * b.den) (a.den * b.num)

theorem qadd_eq_add (a b : ℚ) : qadd a b = a + b := (Rat.add_def' a b).symm

theorem qsub_eq_sub (a b : ℚ) : qsub a b = a - b := (Rat.sub_def' a b).symm

theorem qmul_eq_mul (a b : ℚ) : qmul a b = a * b := by
  rw [qmul, Rat.mul_def, Rat.normalize_eq_mkRat]

theorem qdiv_eq_div (a b : ℚ) : qdiv a b = a / b := (Rat.div_def' a b).symm

/-- JS addition: NaN propagates. -/
def jadd : JsNum → JsNum → JsNum
  | JsNum.num a, JsNum.num b => JsNum.num (qadd a b)
  | _, _ => JsNum.nan

/-- JS subtraction: NaN propagates. -/
def jsub : JsNum → JsNum → JsNum
  | JsNum.num a, JsNum.num b => JsNum.num (qsub a b)
  | _, _ => JsNum.nan

/-- JS multiplication: NaN propagates. -/
def jmul : JsNum → JsNum → JsNum
  | JsNum.num a, JsNum.num b => JsNum.num (qmul a b)
  | _, _ => JsNum.nan

/-- JS division: NaN propagates; division by zero (an infinity in JS) is
modelled as nan and never exercised by the theorems below. -/
def jdiv : JsNum → JsNum → JsNum
  | JsNum.num a, JsNum.num b => if b = 0 then JsNum.nan else JsNum.num (qdiv a b)
  | _, _ => JsNum.nan

/-- JS comparison x <= y: false when either side is NaN. -/
def jle : JsNum → JsNum → Bool
  | JsNum.num a, JsNum.num b => decide (a ≤ b)
  | _, _ => false

/-- JS comparison x < y: false when either side is NaN. -/
def jlt : JsNum → JsNum → Bool
  | JsNum.num a, JsNum.num b => decide (a < b)
  | _, _ => false

/-- JS comparison x >= y: false when either side is NaN. -/
def jge : JsNum → JsNum → Bool
  | JsNum.num a, JsNum.num b => decide (b ≤ a)
  | _, _ => false

/-- JS comparison x > y: false when either side is NaN. -/
def jgt : JsNum → JsNum → Bool
  | JsNum.num a, JsNum.num b => decide (b < a)
  | _, _ => false

/-- Reading a possibly-absent numeric property in numeric context:
an absent (undefined) property behaves as NaN. -/
def toNumJ : Option JsNum → JsNum
  | none => JsNum.nan
  | some x => x

/-- JS truthiness of a possibly-absent numeric property, as used by
the check !pair.size at split.js lines 288 and 294: undefined, 0 and NaN
are falsy, every other number is truthy. -/
def jsTruthy : Option JsNum → Bool
  | none => false
  | some (JsNum.num q) => decide (q ≠ 0)
  | some JsNum.nan => false

/-- Pane object, split.js lines 436-444.  The fields pixelSize, start and
gutterSize are properties that adjust and drag read but that no statement
in split.js ever assigns; a freshly constructed pane has none for all
three (reading them yields undefined). -/
structure Pane where
  minSize : JsNum
  size : JsNum
  isFirst : Bool
  isLast : Bool
  isCollapsed : Bool
  pixelSize : Option JsNum
  start : Option JsNum
  gutterSize : Option JsNum
deriving DecidableEq

/-- Gutter object.  It is created at split.js line 461 with only an el
field, so its size property (read by widthBetween) is absent; isDragging
is assigned (false) only by stopDragging; move and stop hold the bound
drag / stopDragging handler functions, modelled by their creation token. -/
structure Gutter where
  size : Option JsNum
  isDragging : Option Bool
  move : Option Nat
  stop : Option Nat
deriving DecidableEq

/-- Pair object, split.js lines 86-92: pane indices a and b, gutter index
g (absent on the pair built by collapse), plus the size and start
properties that only calculateSizes assigns.  Indices are integers because
the pushable loop in drag decrements pair.a without a lower bound. -/
structure Pair where
  a : Int
  b : Int
  g : Option Nat
  size : Option JsNum
  start : Option JsNum
deriving DecidableEq

/-- The window event channels used by startDragging / stopDragging
(split.js lines 333-337 and 388-392). -/
inductive Channel where
  | mousemove
  | touchmove
  | mouseup
  | touchend
  | touchcancel
deriving DecidableEq

/-- Which source function a bound listener wraps: drag or stopDragging. -/
inductive HandlerKind where
  | move
  | stop
deriving DecidableEq

/-- One window event listener: the channel it is attached to, the handler
it wraps, the gutterIndex the handler was bound to, and a token giving the
identity of the bound function object (each call of startDragging creates
fresh bound functions, so removal by identity only matches listeners added
with the same token). -/
structure Listener where
  channel : Channel
  kind : HandlerKind
  gutterIndex : Nat
  token : Nat
deriving DecidableEq

/-- Per-split mutable state: the pane and gutter arrays, the single
module-level draggingGutter reference (split.js line 128, modelled by the
gutter index), the window listener list, a fresh-token counter for bound
functions, and invocation counters for the onDragStart / onDrag /
onDragEnd callbacks. -/
structure SplitState where
  panes : List Pane
  gutters : List Gutter
  draggingGutter : Option Nat
  winListeners : List Listener
  nextToken : Nat
  dragStartCount : Nat
  dragCount : Nat
  dragEndCount : Nat
deriving DecidableEq

/-- The minSize option: a scalar broadcast to every pane, or a per-pane
array (split.js lines 141-142). -/
inductive MinSizeOpt where
  | scalar (q : ℚ)
  | per (l : List ℚ)
deriving DecidableEq

/-- The configuration options that reach the sizing logic
(split.js lines 137-150).  Rendering options (direction, cursor, gutter
factory, style functions) only affect DOM output and are omitted. -/
structure Config where
  sizes : Option (List ℚ)
  minSize : MinSizeOpt
  gutterSize : ℚ
  snapOffset : ℚ
  pushablePanes : Bool

/-- A pointer or touch move event projected to the drag axis: touches is
the coordinate of the first touch point when the event is a touch event
(split.js line 278), client the pointer coordinate (line 280). -/
structure MoveEvent where
  touches : Option ℚ
  client : ℚ
deriving DecidableEq

/-- Array indexing panes[i]: undefined (none) when out of range,
including the negative indices the pushable loop can produce. -/
def panesGet (panes : List Pane) (i : Int) : Option Pane :=
  if i < 0 then none else panes.get? i.toNat

/-- Writing panes[i]; a write through an out-of-range index never occurs
in the theorems below (adjust guards both indices first). -/
def panesSet (panes : List Pane) (i : Int) (p : Pane) : List Pane :=
  if i < 0 then panes else panes.set i.toNat p

/-- widthBetween, split.js lines 199-203:
gutters.slice(start, end).reduce((S, g) => S + g.size, 0).
Each gutter object was created without a size property, so every summand
is undefined and the reduce yields NaN for any nonempty slice.  The
theorems only exercise 0 <= start <= end, so the JS semantics of
negative slice arguments is not modelled. -/
def widthBetween (gutters : List Gutter) (s e : Int) : JsNum :=
  (((gutters.drop s.toNat).take (e - s).toNat).foldl
    (fun S g => jadd S (toNumJ g.size)) (JsNum.num 0))

/-- adjust, split.js lines 211-222.  Reads panes a and b of the pair
(throwing, i.e. none, when an index is out of range), computes
percentage = a.size + b.size and
pairSize = a.pixelSize + widthBetween(this.a, this.b) + b.pixelSize,
then overwrites a.size with (offset / pairSize) * percentage and b.size
with percentage - ((offset / pairSize) * percentage).  The offset argument
is an Option because collapse invokes adjust.call(pair) with no argument
at all (split.js line 530), making offset undefined.  The two
applyPaneSize calls are DOM style writes and are omitted. -/
def adjust (st : SplitState) (pair : Pair) (offsetArg : Option JsNum) :
    Option SplitState :=
  match panesGet st.panes pair.a, panesGet st.panes pair.b with
  | some a, some b =>
    let offset := toNumJ offsetArg
    let percentage := jadd a.size b.size
    let pairSize :=
      jadd (jadd (toNumJ a.pixelSize) (widthBetween st.gutters pair.a pair.b))
        (toNumJ b.pixelSize)
    let aNew : Pane := { a with size := jmul (jdiv offset pairSize) percentage }
    let bNew : Pane :=
      { b with size := jsub percentage (jmul (jdiv offset pairSize) percentage) }
    some { st with panes := panesSet (panesSet st.panes pair.a aNew) pair.b bNew }
  | _, _ => none

/-- calculateSizes, split.js lines 237-246.  rect is the external layout
oracle standing for getBoundingClientRect: rect i gives the pixel extent
of pane i along the split axis (aBounds[dimension]) and its leading-edge
coordinate (aBounds[position]).  Accessing a pane that does not exist
throws, hence the Option.  Assigns
this.size = aBounds[dimension] + widthBetween(this.a, this.b) + bBounds[dimension]
and this.start = aBounds[position] on the pair. -/
def calculateSizes (panes : List Pane) (gutters : List Gutter)
    (rect : Int → ℚ × ℚ) (pair : Pair) : Option Pair :=
  match panesGet panes pair.a, panesGet panes pair.b with
  | some _, some _ =>
    some { pair with
      size := some (jadd (jadd (JsNum.num (rect pair.a).1)
        (widthBetween gutters pair.a pair.b)) (JsNum.num (rect pair.b).1)),
      start := some (JsNum.num (rect pair.a).2) }
  | _, _ => none

/-- The pair object built at the top of drag and of startDragging
(split.js lines 263-267 and 360-364): indices only, no size and no start
property. -/
def freshDragPair (gutterIndex : Nat) : Pair :=
  { a := (gutterIndex : Int), b := (gutterIndex : Int) + 1,
    g := some gutterIndex, size := none, start := none }

/-- The raw event offset computed by drag, split.js lines 273-281:
the first touch coordinate for a touch event, else the pointer
coordinate, minus pair.start.  drag always passes its freshly built pair,
whose start property is absent, so the subtraction yields NaN. -/
def dragEventOffset (pair : Pair) (e : MoveEvent) : JsNum :=
  match e.touches with
  | some t => jsub (JsNum.num t) (toNumJ pair.start)
  | none => jsub (JsNum.num e.client) (toNumJ pair.start)

/-- The snap clamp of drag, split.js lines 306-310:
if (pairOffset <= a.minSize + snapOffset + panes[pair.a].gutterSize)
then pairOffset = a.minSize + panes[pair.a].gutterSize, else
if (pairOffset >= pair.size - (b.minSize + snapOffset + panes[pair.b].gutterSize))
then pairOffset = pair.size - (b.minSize + panes[pair.b].gutterSize).
Here a and b are the panes looked up at pair.a and pair.b. -/
def snapStep (cfg : Config) (a b : Pane) (pair : Pair) (pairOffset : JsNum) :
    JsNum :=
  if jle pairOffset
      (jadd (jadd a.minSize (JsNum.num cfg.snapOffset)) (toNumJ a.gutterSize)) then
    jadd a.minSize (toNumJ a.gutterSize)
  else if jge pairOffset
      (jsub (toNumJ pair.size)
        (jadd (jadd b.minSize (JsNum.num cfg.snapOffset)) (toNumJ b.gutterSize))) then
    jsub (toNumJ pair.size) (jadd b.minSize (toNumJ b.gutterSize))
  else pairOffset

/-- The first pushable loop of drag, split.js lines 286-290:
while (!a.isFirst && eventOffset < (a.start + a.minSize)) decrement
pair.a, recompute geometry when pair.size is falsy, and add
pair.start - pair.start - a.minSize to pairOffset.  The binding a and
eventOffset never change inside the loop, so in JS the loop either runs
zero times, throws on an out-of-range pane inside calculateSizes, or
never terminates; the fuel argument bounds the iterations and returns
none in the latter case. -/
def cascadeLeft (panes : List Pane) (gutters : List Gutter)
    (rect : Int → ℚ × ℚ) (a : Pane) (eventOffset : JsNum) :
    Nat → Pair → JsNum → Option (Pair × JsNum)
  | 0, _, _ => none
  | fuel + 1, pair, pairOffset =>
    if !a.isFirst && jlt eventOffset (jadd (toNumJ a.start) a.minSize) then
      let pair1 : Pair := { pair with a := pair.a - 1 }
      match (if jsTruthy pair1.size then some pair1
             else calculateSizes panes gutters rect pair1) with
      | some pair2 =>
        cascadeLeft panes gutters rect a eventOffset fuel pair2
          (jadd pairOffset
            (jsub (jsub (toNumJ pair2.start) (toNumJ pair2.start)) a.minSize))
      | none => none
    else some (pair, pairOffset)

/-- The second pushable loop of drag, split.js lines 292-295:
while (!b.isLast && eventOffset > (pair.size - b.minSize)) increment
pair.b and recompute geometry when pair.size is falsy. -/
def cascadeRight (panes : List Pane) (gutters : List Gutter)
    (rect : Int → ℚ × ℚ) (b : Pane) (eventOffset : JsNum) :
    Nat → Pair → Option Pair
  | 0, _ => none
  | fuel + 1, pair =>
    if !b.isLast && jgt eventOffset (jsub (toNumJ pair.size) b.minSize) then
      let pair1 : Pair := { pair with b := pair.b + 1 }
      match (if jsTruthy pair1.size then some pair1
             else calculateSizes panes gutters rect pair1) with
      | some pair2 => cascadeRight panes gutters rect b eventOffset fuel pair2
      | none => none
    else some pair

/-- drag, split.js lines 262-318.  Builds a fresh pair from the bound
gutterIndex, returns unchanged when draggingGutter is null, computes the
raw event offset, runs the two pushable loops plus a geometry
recomputation when pushablePanes is set (re-reading panes a and b from
the possibly widened pair), applies the snap clamp, calls adjust with the
resulting offset, and invokes the onDrag callback. -/
def drag (cfg : Config) (rect : Int → ℚ × ℚ) (gutterIndex : Nat)
    (e : MoveEvent) (st : SplitState) : Option SplitState :=
  let pair := freshDragPair gutterIndex
  if st.draggingGutter = none then some st
  else
    match panesGet st.panes pair.a, panesGet st.panes pair.b with
    | some a0, some b0 =>
      let eventOffset := dragEventOffset pair e
      let fuel := st.panes.length + 1
      let pushed : Option (Pair × Pane × Pane × JsNum) :=
        if cfg.pushablePanes then
          match cascadeLeft st.panes st.gutters rect a0 eventOffset
              fuel pair eventOffset with
          | some (pair1, pairOffset1) =>
            match cascadeRight st.panes st.gutters rect b0 eventOffset
                fuel pair1 with
            | some pair2 =>
              match calculateSizes st.panes st.gutters rect pair2 with
              | some pair3 =>
                match panesGet st.panes pair3.a, panesGet st.panes pair3.b with
                | some a1, some b1 => some (pair3, a1, b1, pairOffset1)
                | _, _ => none
              | none => none
            | none => none
          | none => none
        else some (pair, a0, b0, eventOffset)
      match pushed with
      | some (pair4, a, b, po) =>
        match adjust st pair4 (some (snapStep cfg a b pair4 po)) with
        | some st1 => some { st1 with dragCount := st1.dragCount + 1 }
        | none => none
      | none => none
    | _, _ => none

/-- removeEventListener on the window for a stored handler reference
(split.js lines 333-337): a no-op when the stored reference is null,
otherwise removes the listener with that channel and function identity. -/
def removeListener (channel : Channel) (tok : Option Nat)
    (ls : List Listener) : List Listener :=
  match tok with
  | none => ls
  | some t => ls.filter (fun l => !(l.channel = channel ∧ l.token = t))

/-- startDragging, split.js lines 359-408.  Fires onDragStart only when
draggingGutter is null, sets draggingGutter to this gutter, creates fresh
bound drag / stopDragging functions and stores them in g.move / g.stop,
attaches them to the five window channels, and finally calls
calculateSizes on a pair object that is local to this function and
discarded when it returns (the cached size and start are kept nowhere in
the split state).  Cursor, selection-disabling and preventDefault are DOM
side effects and are omitted. -/
def startDragging (rect : Int → ℚ × ℚ) (gutterIndex : Nat)
    (st : SplitState) : Option SplitState :=
  let pair := freshDragPair gutterIndex
  match panesGet st.panes pair.a, panesGet st.panes pair.b,
      st.gutters.get? gutterIndex with
  | some _, some _, some g =>
    let st1 :=
      if st.draggingGutter = none then
        { st with dragStartCount := st.dragStartCount + 1 }
      else st
    let tMove := st1.nextToken
    let tStop := st1.nextToken + 1
    let gNew : Gutter := { g with move := some tMove, stop := some tStop }
    let added : List Listener :=
      [⟨Channel.mouseup, HandlerKind.stop, gutterIndex, tStop⟩,
       ⟨Channel.touchend, HandlerKind.stop, gutterIndex, tStop⟩,
       ⟨Channel.touchcancel, HandlerKind.stop, gutterIndex, tStop⟩,
       ⟨Channel.mousemove, HandlerKind.move, gutterIndex, tMove⟩,
       ⟨Channel.touchmove, HandlerKind.move, gutterIndex, tMove⟩]
    let st2 :=
      { st1 with
        draggingGutter := some gutterIndex,
        gutters := st1.gutters.set gutterIndex gNew,
        winListeners := st1.winListeners ++ added,
        nextToken := st1.nextToken + 2 }
    (calculateSizes st2.panes st2.gutters rect pair).map (fun _ => st2)
  | _, _, _ => none

/-- stopDragging, split.js lines 321-354.  Fires onDragEnd whenever
draggingGutter is non-null, sets g.isDragging to false, removes the
window listeners stored in g.stop and g.move, and nulls those references.
Note that draggingGutter itself is never reset to null anywhere in
split.js.  Cursor, selection and the selectstart / dragstart listeners on
the pane elements are DOM side effects and are omitted. -/
def stopDragging (gutterIndex : Nat) (st : SplitState) : Option SplitState :=
  match st.gutters.get? gutterIndex, st.panes.get? gutterIndex,
      st.panes.get? (gutterIndex + 1) with
  | some g, some _, some _ =>
    let st1 :=
      if st.draggingGutter ≠ none then
        { st with dragEndCount := st.dragEndCount + 1 }
      else st
    let ls := removeListener Channel.mouseup g.stop st1.winListeners
    let ls := removeListener Channel.touchend g.stop ls
    let ls := removeListener Channel.touchcancel g.stop ls
    let ls := removeListener Channel.mousemove g.move ls
    let ls := removeListener Channel.touchmove g.move ls
    let gNew : Gutter :=
      { g with isDragging := some false, move := none, stop := none }
    some { st1 with
      winListeners := ls,
      gutters := st1.gutters.set gutterIndex gNew }
  | _, _, _ => none

/-- Invocation of one attached window listener: a move listener wraps drag
bound to its gutterIndex, a stop listener wraps stopDragging. -/
def invokeListener (cfg : Config) (rect : Int → ℚ × ℚ) (e : MoveEvent)
    (l : Listener) (st : SplitState) : Option SplitState :=
  match l.kind with
  | HandlerKind.move => drag cfg rect l.gutterIndex e st
  | HandlerKind.stop => stopDragging l.gutterIndex st

/-- DOM event delivery over a snapshot of the listeners attached to one
channel: listeners run in attachment order, and a listener that was
removed by an earlier handler of the same event is skipped. -/
def dispatchGo (cfg : Config) (rect : Int → ℚ × ℚ) (e : MoveEvent) :
    List Listener → SplitState → Option SplitState
  | [], st => some st
  | l :: rest, st =>
    if st.winListeners.contains l then
      match invokeListener cfg rect e l st with
      | some st1 => dispatchGo cfg rect e rest st1
      | none => none
    else dispatchGo cfg rect e rest st

/-- Dispatch of one window event on a channel to the currently attached
listeners (the stop channels ignore the numeric payload). -/
def dispatch (cfg : Config) (rect : Int → ℚ × ℚ) (c : Channel)
    (e : MoveEvent) (st : SplitState) : Option SplitState :=
  dispatchGo cfg rect e (st.winListeners.filter (fun l => l.channel = c)) st

/-- The state built by the Split constructor, split.js lines 122-475, for
n pane elements: sizes default to 100 / n each, minSize (default 100) is
broadcast when scalar, each pane after the first gets a gutter object
holding only its element, and a pane whose initially computed pixel size
(rect0, the layout oracle at construction time) is below its configured
minSize has its minSize lowered to that computed size.  Gutter-element
creation, style application and the mousedown / touchstart wiring are DOM
side effects; the non-draggable IE8 branch is not modelled. -/
def Split (n : Nat) (cfg : Config) (rect0 : Nat → ℚ) : SplitState :=
  let sizes := cfg.sizes.getD ((List.range n).map (fun _ => qdiv 100 (n : ℚ)))
  let minSizes :=
    match cfg.minSize with
    | MinSizeOpt.scalar m => (List.range n).map (fun _ => m)
    | MinSizeOpt.per l => l
  let panes := (List.range n).map (fun i =>
    let pane : Pane :=
      { minSize := toNumJ ((minSizes.get? i).map JsNum.num),
        size := toNumJ ((sizes.get? i).map JsNum.num),
        isFirst := i == 0,
        isLast := i == n - 1,
        isCollapsed := false,
        pixelSize := none, start := none, gutterSize := none }
    if jlt (JsNum.num (rect0 i)) pane.minSize then
      { pane with minSize := JsNum.num (rect0 i) }
    else pane)
  let gutters := (List.range (n - 1)).map (fun _ =>
    ({ size := none, isDragging := none, move := none, stop := none } : Gutter))
  { panes := panes, gutters := gutters, draggingGutter := none,
    winListeners := [], nextToken := 0,
    dragStartCount := 0, dragCount := 0, dragEndCount := 0 }

/-- The recursion inside setSizes, split.js lines 493-498: overwrite the
size of the i-th pane with the i-th new size, in order.  The case of more
new sizes than panes throws in JS and is excluded by the guard in
setSizes. -/
def setSizesList : List Pane → List JsNum → List Pane
  | ps, [] => ps
  | [], _ :: _ => []
  | p :: ps, v :: vs => { p with size := v } :: setSizesList ps vs

/-- setSizes, split.js lines 493-498: stores each given size verbatim into
the corresponding pane (and re-applies styles, a DOM effect).  When the
list is longer than the pane array, the JS code throws on the missing
pane, modelled as none. -/
def setSizes (newSizes : List JsNum) (st : SplitState) : Option SplitState :=
  if newSizes.length ≤ st.panes.length then
    some { st with panes := setSizesList st.panes newSizes }
  else none

/-- getSizes, split.js lines 518-520: the current pane sizes, verbatim. -/
def getSizes (st : SplitState) : List JsNum :=
  st.panes.map (fun p => p.size)

/-- collapse, split.js lines 521-532: builds a pair object with indices
(i-1, i) when i equals the pane count and (i, i+1) otherwise, no g, no
size, no start; runs calculateSizes on it; then calls adjust.call(pair)
with NO offset argument, so adjust runs with offset undefined. -/
def collapse (rect : Int → ℚ × ℚ) (i : Nat) (st : SplitState) :
    Option SplitState :=
  let pair : Pair :=
    { a := if i = st.panes.length then (i : Int) - 1 else (i : Int),
      b := if i = st.panes.length then (i : Int) else (i : Int) + 1,
      g := none, size := none, start := none }
  match calculateSizes st.panes st.gutters rect pair with
  | some pair1 => adjust st pair1 none
  | none => none

/-- The configuration of the concrete scenario from the specification:
three panes sized 33.3 / 33.3 / 33.4 percent, scalar minSize 100,
gutterSize 10, snapOffset 30, pushable panes off. -/
def demoCfg : Config :=
  { sizes := some [mkRat 333 10, mkRat 333 10, mkRat 167 5],
    minSize := MinSizeOpt.scalar 100,
    gutterSize := 10, snapOffset := 30, pushablePanes := false }

/-- The same configuration with pushablePanes enabled. -/
def demoCfgPush : Config := { demoCfg with pushablePanes := true }

/-- Layout oracle at construction time: every pane computes to 290 pixels. -/
def demoRect0 : Nat → ℚ := fun _ => 290

/-- Layout oracle during the drag: pane i has pixel extent 290 and leading
edge 300 * i (pane 0 starts at coordinate 0). -/
def demoRect : Int → ℚ × ℚ := fun i => (290, mkRat (300 * i) 1)

/-- The split state built by the constructor in the demo scenario. -/
def demoState : SplitState := Split 3 demoCfg demoRect0

/-- A mouse move event at axis coordinate 400. -/
def demoMove : MoveEvent := { touches := none, client := 400 }

/-- A mouse move event far to the left of the split. -/
def demoMoveFarLeft : MoveEvent := { touches := none, client := -1000 }

/-- The (unused) payload carried by a stop-class event. -/
def stopEvt : MoveEvent := { touches := none, client := 0 }

/-- The state after a pointer-down on gutter 0 of the demo split. -/
def demoAfterDown0 : SplitState :=
  (startDragging demoRect 0 demoState).getD demoState

/-- The state after a further pointer-down on gutter 1. -/
def demoAfterDown1 : SplitState :=
  (startDragging demoRect 1 demoAfterDown0).getD demoAfterDown0

/-- The middle pane of the demo split, as the constructor builds it. -/
def demoPane1 : Pane :=
  { minSize := JsNum.num 100, size := JsNum.num (mkRat 333 10),
    isFirst := false, isLast := false, isCollapsed := false,
    pixelSize := none, start := none, gutterSize := none }

/-- The last pane of the demo split, as the constructor builds it. -/
def demoPane2 : Pane :=
  { minSize := JsNum.num 100, size := JsNum.num (mkRat 167 5),
    isFirst := false, isLast := true, isCollapsed := false,
    pixelSize := none, start := none, gutterSize := none }

/-- A mouse move event at axis coordinate 405. -/
def demoMove405 : MoveEvent := { touches := none, client := 405 }

/-- Reading the size of pane i of a state (NaN when the pane is absent). -/
def paneSizeAt (st : SplitState) (i : Nat) : JsNum :=
  toNumJ ((st.panes.get? i).map (fun p => p.size))

/-- Claim C1: dragging the first gutter of the 33.3 / 33.3 / 33.4 split is
claimed to change only pane 0 and pane 1, in proportion offset / pairSize,
leaving pane 2 at 33.4.  Evaluating the code on that drag shows pane 2
does stay at 33.4, but panes 0 and 1 both become NaN instead of the
proportional values, because the fresh pair built by drag has no start
property and the panes have no pixelSize property. -/
theorem claim_C1_drag_sets_nan_sizes :
    ((startDragging demoRect 0 demoState).bind
        (drag demoCfg demoRect 0 demoMove)).map getSizes
      = some [JsNum.nan, JsNum.nan, JsNum.num (mkRat 167 5)]
    ∧ JsNum.nan ≠ JsNum.num (qmul (qdiv 400 590) (mkRat 333 5)) := by
  decide

/-- Claim C2: adjust is claimed to preserve a.size + b.size.  On the demo
split the pair sum is 66.6 before the call, but after adjust with offset
400 both sizes are NaN (pairSize is computed from the never-assigned
pane.pixelSize), so the sum is NaN, not 66.6. -/
theorem claim_C2_adjust_sum_not_preserved :
    jadd (paneSizeAt demoState 0) (paneSizeAt demoState 1) = JsNum.num (mkRat 333 5)
    ∧ (adjust demoState (freshDragPair 0) (some (JsNum.num 400))).map
        (fun st => jadd (paneSizeAt st 0) (paneSizeAt st 1)) = some JsNum.nan
    ∧ JsNum.nan ≠ JsNum.num (mkRat 333 5) := by
  decide

/-- Claim C3: the raw offset fed to the sizing pipeline is claimed to be
the pointer coordinate minus the start captured by calculateSizes at the
Idle-to-Dragging transition.  The capture does set start to 0 for the
first pair, so the claimed offset for a pointer at 405 would be 405; but
drag reads start from its own freshly built pair, which has no start
property, so the computed offset is NaN. -/
theorem claim_C3_offset_not_from_cached_start :
    (calculateSizes demoState.panes demoState.gutters demoRect
        (freshDragPair 0)).map (fun p => p.start) = some (some (JsNum.num 0))
    ∧ dragEventOffset (freshDragPair 0) demoMove405 = JsNum.nan
    ∧ JsNum.nan ≠ jsub (JsNum.num 405) (JsNum.num 0) := by
  decide

/-- Claim C4: calculateSizes is claimed to cache
pixelExtent(a) + gutter sizes between + pixelExtent(b) as the pair size
and the leading edge of a as start.  With extents 290 and 290, leading
edge 0 and gutterSize 10 the claimed size is 590; the code caches start
correctly but caches NaN for the size, because the gutter objects are
created without a size property and widthBetween sums those absent
sizes. -/
theorem claim_C4_calculateSizes_size_nan :
    (calculateSizes demoState.panes demoState.gutters demoRect
        (freshDragPair 0)).map (fun p => (p.size, p.start))
      = some (some JsNum.nan, some (JsNum.num 0))
    ∧ some JsNum.nan ≠ some (JsNum.num 590) := by
  decide

/-- Claim C5: the snap step is claimed to clamp an offset of 50 (within
snapOffset 30 of the minimum boundary aMin = 100, gutterSize 10) to
aMin + gutterSize = 110.  The code compares against
a.minSize + snapOffset + panes[pair.a].gutterSize, and the pane objects
have no gutterSize property, so the bound is NaN, the comparison is
false, and the offset 50 is passed through unchanged. -/
theorem claim_C5_snap_never_clamps :
    demoState.panes.get? 1 = some demoPane1
    ∧ demoState.panes.get? 2 = some demoPane2
    ∧ snapStep demoCfg demoPane1 demoPane2 (freshDragPair 1) (JsNum.num 50)
        = JsNum.num 50
    ∧ JsNum.num 50 ≠ JsNum.num 110 := by
  decide

/-- Claim C6: with pushablePanes enabled, a drag whose offset would drive
boundary pane a below its minimum is claimed to decrement the pair's left
index.  Pane 1 is not first and the event offset -1000 is far below any
minimum, yet cascadeLeft returns the pair unchanged (its guard compares
against the never-assigned pane.start, so it is false), and a far-left
pushable drag on gutter 1 leaves pane 0 untouched while setting panes 1
and 2 to NaN. -/
theorem claim_C6_cascade_never_shifts :
    demoState.panes.get? 1 = some demoPane1
    ∧ demoPane1.isFirst = false
    ∧ cascadeLeft demoState.panes demoState.gutters demoRect demoPane1
        (JsNum.num (-1000)) 4 (freshDragPair 1) (JsNum.num (-1000))
        = some (freshDragPair 1, JsNum.num (-1000))
    ∧ ((startDragging demoRect 1 demoState).bind
          (drag demoCfgPush demoRect 1 demoMoveFarLeft)).map getSizes
        = some [JsNum.num (mkRat 333 10), JsNum.nan, JsNum.nan] := by
  decide

/-- Claim C7: collapse(0) is claimed to drive pane 0 to its minimum
feasible size with pane 1 absorbing the freed percentage.  The code calls
adjust with no offset argument, so the offset is undefined and both pane
sizes become NaN instead. -/
theorem claim_C7_collapse_nan :
    (collapse demoRect 0 demoState).map getSizes
      = some [JsNum.nan, JsNum.nan, JsNum.num (mkRat 167 5)] := by
  decide

/-- Claim C8, counterexample: a pointer-down on gutter 1 while gutter 0 is
already dragging is claimed to be ignored.  Evaluating the code on the
demo split shows the second pointer-down rebinds draggingGutter to
gutter 1 and attaches five further window listeners (only onDragStart is
suppressed), so the session is not left bound to gutter 0. -/
theorem claim_C8_counterexample :
    ((startDragging demoRect 0 demoState).bind
        (startDragging demoRect 1)).map
      (fun st => (st.draggingGutter, st.dragStartCount, st.winListeners.length))
      = some (some 1, 1, 10)
    ∧ (some 1 : Option Nat) ≠ some 0 := by
  decide

/-- Claim C8, amended: a pointer-down on a second gutter while a session
is active is NOT ignored: startDragging always rebinds draggingGutter to
the new gutter and attaches five fresh window listeners for it, and only
the onDragStart callback is suppressed (it is guarded by
draggingGutter === null). -/
theorem claim_C8_amended (rect : Int → ℚ × ℚ) (gi : Nat) (st st1 : SplitState)
    (h : startDragging rect gi st = some st1)
    (hactive : st.draggingGutter ≠ none) :
    st1.draggingGutter = some gi ∧ st1.dragStartCount = st.dragStartCount ∧
    st1.winListeners.length = st.winListeners.length + 5 := by
  rw [startDragging] at h
  rcases hA : panesGet st.panes (freshDragPair gi).a with _ | a <;> rw [hA] at h
  · simp at h
  rcases hB : panesGet st.panes (freshDragPair gi).b with _ | b <;> rw [hB] at h
  · simp at h
  rcases hG : st.gutters.get? gi with _ | g <;> rw [hG] at h
  · simp at h
  simp only [if_neg hactive] at h
  rcases Option.map_eq_some'.mp h with ⟨p, hp, hst⟩
  subst hst
  refine ⟨rfl, rfl, ?_⟩
  simp [List.length_append]

/-- Witness for the amended claim C8: instantiated on the demo split with
a session already active on gutter 0 and a second pointer-down on
gutter 1. -/
theorem claim_C8_amended_witness :
    demoAfterDown1.draggingGutter = some 1
    ∧ demoAfterDown1.dragStartCount = demoAfterDown0.dragStartCount
    ∧ demoAfterDown1.winListeners.length = demoAfterDown0.winListeners.length + 5 :=
  claim_C8_amended demoRect 1 demoAfterDown0 demoAfterDown1 (by decide) (by decide)

/-- Claim C9: a stop event is claimed to clear the session reference and
fire onDragEnd exactly once per session, with further stop deliveries
having no effect.  In the trace pointer-down on gutter 0, pointer-down on
gutter 0 again (same session: onDragStart fired once), mouseup, mouseup,
the code fires onDragEnd twice for the single session, leaves
draggingGutter still referencing gutter 0 after both stops, and leaves
five stale window listeners attached (the second pointer-down overwrote
the stored g.stop before the first one was removed). -/
theorem claim_C9_stop_not_idempotent :
    ((((startDragging demoRect 0 demoState).bind
          (startDragging demoRect 0)).bind
        (dispatch demoCfg demoRect Channel.mouseup stopEvt)).bind
      (dispatch demoCfg demoRect Channel.mouseup stopEvt)).map
      (fun st => (st.dragStartCount, st.dragEndCount, st.draggingGutter,
        st.winListeners.length))
      = some (1, 2, some 0, 5)
    ∧ (some 0 : Option Nat) ≠ none := by
  decide

/-- Sizes written by setSizesList are read back verbatim when as many new
sizes as panes are supplied. -/
theorem setSizesList_map_size (vs : List JsNum) :
    ∀ ps : List Pane, vs.length = ps.length →
      (setSizesList ps vs).map (fun p => p.size) = vs := by
  induction vs with
  | nil =>
    intro ps h
    cases ps with
    | nil => simp [setSizesList]
    | cons p ps => simp at h
  | cons v vs ih =>
    intro ps h
    cases ps with
    | nil => simp at h
    | cons p ps =>
      simp only [setSizesList, List.map_cons]
      exact congrArg _ (ih ps (by simpa using h))

/-- Claim C10: for every list of sizes whose length equals the pane
count, setSizes stores the given percentages verbatim (no validation,
clamping or normalisation) and getSizes returns exactly that list. -/
theorem claim_C10_setSizes_roundtrip (st : SplitState) (s : List JsNum)
    (h : s.length = st.panes.length) :
    (setSizes s st).map getSizes = some s := by
  rw [setSizes, if_pos (le_of_eq h)]
  simp only [Option.map_some']
  exact congrArg some (setSizesList_map_size s st.panes h)

/-- Witness for claim C10: storing sizes that sum to 60 (not 100) into the
demo split and reading them back returns them verbatim. -/
theorem claim_C10_witness :
    (setSizes [JsNum.num 10, JsNum.num 20, JsNum.num 30] demoState).map getSizes
      = some [JsNum.num 10, JsNum.num 20, JsNum.num 30] :=
  claim_C10_setSizes_roundtrip demoState
    [JsNum.num 10, JsNum.num 20, JsNum.num 30] (by decide)

end UiSplitter
